import Mathlib

/-!
Shallow embedding of `fairseq/optim/lr_scheduler/vaswani_schedule.py`
(class `InverseSquareRootSchedule`, registered as the `vaswani` LR scheduler).

Python floats are idealised as real numbers; `x ** e` becomes `Real.rpow`.
Python exceptions are made explicit: construction returns `Except InitError`,
and `step_update` returns `Option` because `0 ** -0.5` raises
`ZeroDivisionError` in Python.
-/

namespace Vaswani

/-- The configuration bundle (`args`): fields read by the scheduler.
`--lr` is a list of floats; `--warmup-updates` (default 4000) and
`--hidden-layer-size` (default 1024) are integers; `--warmup-init-lr`
(default 0) is a float. -/
structure Args where
  lr : List ℝ
  warmup_updates : ℕ
  warmup_init_lr : ℝ
  hidden_layer_size : ℕ

/-- The external optimizer collaborator: holds a learning rate, exposes
`get_lr` and `set_lr`. -/
structure Optimizer where
  lr : ℝ

def Optimizer.set_lr (o : Optimizer) (v : ℝ) : Optimizer := { o with lr := v }

def Optimizer.get_lr (o : Optimizer) : ℝ := o.lr

/-- The schedule object's fields after `__init__` (lines 49-54):
`warmup_init_lr` is the internal slope `warmup_updates ** -1.5`,
`d_model` is `hidden_layer_size`, `d_model_factor` is `d_model ** -0.5`,
and `lr` is the mutable current learning rate. -/
structure InverseSquareRootSchedule where
  warmup_init_lr : ℝ
  d_model : ℕ
  d_model_factor : ℝ
  lr : ℝ

/-- Python exceptions that `__init__` can raise: `ValueError` (line 37,
more than one `--lr` value), `IndexError` (line 41, empty `--lr` list),
`ZeroDivisionError` (lines 45/49/53, `0` raised to a negative power). -/
inductive InitError where
  | valueError
  | indexError
  | zeroDivisionError
  deriving DecidableEq

/-- Lines 42-45: resolve `args.warmup_init_lr` in place. If it is negative
it becomes `warmup_end_lr = args.lr[0]`; otherwise it is overwritten with
`1.0 * args.warmup_updates ** -1.5`. -/
noncomputable def resolveArgs (args : Args) (warmup_end_lr : ℝ) : Args :=
  if args.warmup_init_lr < 0 then { args with warmup_init_lr := warmup_end_lr }
  else { args with warmup_init_lr := 1.0 * (args.warmup_updates : ℝ) ^ (-1.5 : ℝ) }

/-- Line 46: the diagnostic line printed in the `else` branch, holding the
value just written into `args.warmup_init_lr`. -/
noncomputable def initPrinted (args : Args) : List ℝ :=
  if args.warmup_init_lr < 0 then []
  else [1.0 * (args.warmup_updates : ℝ) ^ (-1.5 : ℝ)]

/-- Lines 49-54: the schedule fields computed at construction. `args` is
the original configuration (its `warmup_updates` / `hidden_layer_size` are
never written), `args2` is the configuration after the in-place resolution
of `warmup_init_lr`. -/
noncomputable def mkSched (args args2 : Args) : InverseSquareRootSchedule :=
  { warmup_init_lr := (args.warmup_updates : ℝ) ^ (-1.5 : ℝ)
    d_model := args.hidden_layer_size
    d_model_factor := (args.hidden_layer_size : ℝ) ^ (-0.5 : ℝ)
    lr := args2.warmup_init_lr * (args.hidden_layer_size : ℝ) ^ (-0.5 : ℝ) }

/-- Construction, `__init__` (lines 34-55). Returns the mutated `args`, the constructed
schedule, the optimizer after the `set_lr` call of line 55, and the list of
printed diagnostic values; or the Python exception raised.
`warmup_updates = 0` makes `args.warmup_updates ** -1.5` (lines 45/49, the
latter always evaluated) raise `ZeroDivisionError`, and
`hidden_layer_size = 0` makes `self.d_model ** -0.5` (line 53) raise it. -/
noncomputable def init (args : Args) (optimizer : Optimizer) :
    Except InitError (Args × InverseSquareRootSchedule × Optimizer × List ℝ) :=
  match args.lr with
  | [] => .error .indexError
  | _ :: _ :: _ => .error .valueError
  | [warmup_end_lr] =>
    if args.warmup_updates = 0 then .error .zeroDivisionError
    else if args.hidden_layer_size = 0 then .error .zeroDivisionError
    else
      let args2 := resolveArgs args warmup_end_lr
      let sched := mkSched args args2
      .ok (args2, sched, optimizer.set_lr sched.lr, initPrinted args)

/-- Line 78: `lr1 = num_updates * self.warmup_init_lr`. -/
noncomputable def lr1 (self : InverseSquareRootSchedule) (num_updates : ℕ) : ℝ :=
  (num_updates : ℝ) * self.warmup_init_lr

/-- Line 79: `lr2 = num_updates ** -0.5`. -/
noncomputable def lr2 (num_updates : ℕ) : ℝ :=
  (num_updates : ℝ) ^ (-0.5 : ℝ)

/-- Line 81: the value assigned to `self.lr`,
`min([lr1, lr2]) * self.d_model_factor`. -/
noncomputable def step_update_lr (self : InverseSquareRootSchedule) (num_updates : ℕ) : ℝ :=
  min (lr1 self num_updates) (lr2 num_updates) * self.d_model_factor

/-- Per-update hook `step_update` (lines 72-84). At `num_updates = 0` line 79 evaluates
`0 ** -0.5`, which raises `ZeroDivisionError` in Python, hence `none`.
Otherwise returns the updated schedule, the optimizer after `set_lr`
(line 83), and the returned learning rate (line 84). -/
noncomputable def step_update (self : InverseSquareRootSchedule) (optimizer : Optimizer)
    (num_updates : ℕ) : Option (InverseSquareRootSchedule × Optimizer × ℝ) :=
  if num_updates = 0 then none
  else
    let newLr := step_update_lr self num_updates
    some ({ self with lr := newLr }, optimizer.set_lr newLr, newLr)

/-- Modelled from the spec: the per-epoch hook `step` (lines 66-70)
delegates to the base class hook `FairseqLRScheduler.step`, which is not
part of this source file; per the spec it performs bookkeeping only and
changes neither the schedule's learning rate nor the optimizer's. The
method then returns `self.optimizer.get_lr()` without touching
`self.lr`. -/
def step (self : InverseSquareRootSchedule) (optimizer : Optimizer)
    (epoch : ℕ) (val_loss : Option ℝ) : InverseSquareRootSchedule × Optimizer × ℝ :=
  (self, optimizer, optimizer.get_lr)

/-! Basic facts about the embedded definitions -/

/-- Successful construction, computed: with a one-element `lr` list and
nonzero `warmup_updates` and `hidden_layer_size`, `init` returns the
resolved configuration, the constructed schedule, the updated optimizer
and the printed diagnostics. -/
theorem init_eq_ok (args : Args) (opt : Optimizer) (x : ℝ) (h : args.lr = [x])
    (hW : args.warmup_updates ≠ 0) (hH : args.hidden_layer_size ≠ 0) :
    init args opt = .ok (resolveArgs args x, mkSched args (resolveArgs args x),
      opt.set_lr (mkSched args (resolveArgs args x)).lr, initPrinted args) := by
  unfold init
  rw [h]
  simp [hW, hH]

/-- Inversion of successful construction: every `.ok` result of `init` has
the shape produced by `resolveArgs` and `mkSched`, and the configuration
necessarily had a one-element `lr` list and nonzero `warmup_updates` and
`hidden_layer_size`. -/
theorem init_ok_inv (args : Args) (opt : Optimizer) (args2 : Args)
    (sched : InverseSquareRootSchedule) (opt1 : Optimizer) (pr : List ℝ)
    (h : init args opt = .ok (args2, sched, opt1, pr)) :
    args.warmup_updates ≠ 0 ∧ args.hidden_layer_size ≠ 0 ∧
    ∃ x, args.lr = [x] ∧ args2 = resolveArgs args x ∧ sched = mkSched args args2 ∧
      opt1 = opt.set_lr (mkSched args args2).lr ∧ pr = initPrinted args := by
  unfold init at h
  split at h
  · exact absurd h (by simp)
  · exact absurd h (by simp)
  · rename_i x heq
    split at h
    · exact absurd h (by simp)
    · rename_i hW
      split at h
      · exact absurd h (by simp)
      · rename_i hH
        simp only [Except.ok.injEq, Prod.mk.injEq] at h
        obtain ⟨h1, h2, h3, h4⟩ := h
        subst h1
        exact ⟨hW, hH, x, heq, rfl, h2.symm, h3.symm, h4.symm⟩

/-- Computed form of `step_update` at a nonzero update count. -/
theorem step_update_eq (self : InverseSquareRootSchedule) (opt : Optimizer)
    (n : ℕ) (hn : n ≠ 0) :
    step_update self opt n = some ({ self with lr := step_update_lr self n },
      opt.set_lr (step_update_lr self n), step_update_lr self n) := by
  rw [step_update, if_neg hn]

/-! Arithmetic of the two candidate rates -/

/-- For `n ≠ 0`, the decay candidate `n ** -0.5` factors as
`n * n ** -1.5`. -/
theorem lr2_eq_mul (n : ℕ) (hn : n ≠ 0) :
    lr2 n = (n : ℝ) * (n : ℝ) ^ (-1.5 : ℝ) := by
  have hpos : (0 : ℝ) < n := by exact_mod_cast Nat.pos_of_ne_zero hn
  rw [lr2, show (-0.5 : ℝ) = 1 + (-1.5 : ℝ) by norm_num, Real.rpow_add hpos, Real.rpow_one]

/-- A nonpositive real power of a natural number is antitone in the base. -/
theorem rpow_cast_anti (a b : ℕ) (y : ℝ) (hy : y ≤ 0) (ha : a ≠ 0) (hab : a ≤ b) :
    (b : ℝ) ^ y ≤ (a : ℝ) ^ y := by
  have hpos : (0 : ℝ) < a := by exact_mod_cast Nat.pos_of_ne_zero ha
  exact Real.rpow_le_rpow_of_nonpos hpos (by exact_mod_cast hab) hy

/-- During warmup (`n ≤ W`) the linear candidate is below the decay
candidate. -/
theorem lr1_le_lr2 (W n : ℕ) (self : InverseSquareRootSchedule)
    (hself : self.warmup_init_lr = (W : ℝ) ^ (-1.5 : ℝ))
    (hn : n ≠ 0) (hnW : n ≤ W) : lr1 self n ≤ lr2 n := by
  rw [lr1, hself, lr2_eq_mul n hn]
  exact mul_le_mul_of_nonneg_left (rpow_cast_anti n W _ (by norm_num) hn hnW)
    (Nat.cast_nonneg n)

/-- After the crossover (`W ≤ n`) the decay candidate is below the linear
candidate. -/
theorem lr2_le_lr1 (W n : ℕ) (self : InverseSquareRootSchedule)
    (hself : self.warmup_init_lr = (W : ℝ) ^ (-1.5 : ℝ))
    (hW : W ≠ 0) (hWn : W ≤ n) : lr2 n ≤ lr1 self n := by
  have hn : n ≠ 0 := by omega
  rw [lr1, hself, lr2_eq_mul n hn]
  exact mul_le_mul_of_nonneg_left (rpow_cast_anti W n _ (by norm_num) hW hWn)
    (Nat.cast_nonneg n)

/-! Concrete example configurations, used by the witnesses -/

noncomputable def exArgs : Args :=
  { lr := [2], warmup_updates := 4, warmup_init_lr := 0, hidden_layer_size := 9 }

noncomputable def exArgsPair : Args :=
  { lr := [1, 2], warmup_updates := 4, warmup_init_lr := 0, hidden_layer_size := 9 }

noncomputable def exOpt : Optimizer := { lr := 0 }

noncomputable def exArgsR : Args := resolveArgs exArgs 2

noncomputable def exSched : InverseSquareRootSchedule := mkSched exArgs exArgsR

noncomputable def exOpt1 : Optimizer := exOpt.set_lr exSched.lr

/-! Claims -/

/-- C1: for every `num_updates ≥ 1`, `step_update` on a schedule produced by
construction returns
`min(num_updates * warmup_updates^-1.5, num_updates^-0.5) * hidden_layer_size^-0.5`
and assigns this same value to the schedule's internal current learning
rate. -/
theorem c1_step_update_formula (args : Args) (opt : Optimizer) (args2 : Args)
    (sched : InverseSquareRootSchedule) (opt1 : Optimizer) (pr : List ℝ)
    (hinit : init args opt = .ok (args2, sched, opt1, pr))
    (n : ℕ) (hn : 1 ≤ n) :
    ∃ sched2 opt2, step_update sched opt1 n = some (sched2, opt2,
        min ((n : ℝ) * (args.warmup_updates : ℝ) ^ (-1.5 : ℝ)) ((n : ℝ) ^ (-0.5 : ℝ))
          * (args.hidden_layer_size : ℝ) ^ (-0.5 : ℝ)) ∧
      sched2.lr = min ((n : ℝ) * (args.warmup_updates : ℝ) ^ (-1.5 : ℝ)) ((n : ℝ) ^ (-0.5 : ℝ))
          * (args.hidden_layer_size : ℝ) ^ (-0.5 : ℝ) := by
  obtain ⟨hW, hH, x, hl, ha, hs, ho, hp⟩ := init_ok_inv args opt args2 sched opt1 pr hinit
  subst hs
  have h0 : n ≠ 0 := by omega
  exact ⟨_, _, step_update_eq _ opt1 n h0, rfl⟩

theorem c1_witness :
    ∃ sched2 opt2, step_update exSched exOpt1 3 = some (sched2, opt2,
        min (((3 : ℕ) : ℝ) * (exArgs.warmup_updates : ℝ) ^ (-1.5 : ℝ))
          (((3 : ℕ) : ℝ) ^ (-0.5 : ℝ)) * (exArgs.hidden_layer_size : ℝ) ^ (-0.5 : ℝ)) ∧
      sched2.lr = min (((3 : ℕ) : ℝ) * (exArgs.warmup_updates : ℝ) ^ (-1.5 : ℝ))
          (((3 : ℕ) : ℝ) ^ (-0.5 : ℝ)) * (exArgs.hidden_layer_size : ℝ) ^ (-0.5 : ℝ) :=
  c1_step_update_formula exArgs exOpt exArgsR exSched exOpt1 (initPrinted exArgs)
    (init_eq_ok exArgs exOpt 2 rfl (by decide) (by decide)) 3 (by decide)

/-- C2: for every configuration whose `lr` list contains more than one
value, construction fails with the `ValueError` of line 37 (the spec's
`ConfigurationError`); no schedule state is produced and the optimizer is
not written. -/
theorem c2_multiple_lr_rejected (args : Args) (opt : Optimizer)
    (h : 1 < args.lr.length) : init args opt = .error .valueError := by
  rcases hl : args.lr with _ | ⟨a, _ | ⟨b, t⟩⟩
  · rw [hl] at h; simp at h
  · rw [hl] at h; simp at h
  · unfold init
    rw [hl]

theorem c2_witness : init exArgsPair exOpt = .error .valueError :=
  c2_multiple_lr_rejected exArgsPair exOpt (by decide)

/-- C3: at construction the configuration field `warmup_init_lr` is
resolved in place: a negative configured value is replaced by the single
target learning rate `lr[0]`, and otherwise it is overwritten with
`warmup_updates ** -1.5` regardless of the caller-provided value, with the
computed value emitted as a diagnostic line. -/
theorem c3_resolve_warmup_init_lr (args : Args) (opt : Optimizer) (x : ℝ)
    (h : args.lr = [x]) (hW : args.warmup_updates ≠ 0)
    (hH : args.hidden_layer_size ≠ 0) :
    ∃ sched opt1, init args opt = .ok (resolveArgs args x, sched, opt1, initPrinted args) ∧
      (args.warmup_init_lr < 0 →
        (resolveArgs args x).warmup_init_lr = x ∧ initPrinted args = []) ∧
      (0 ≤ args.warmup_init_lr →
        (resolveArgs args x).warmup_init_lr = (args.warmup_updates : ℝ) ^ (-1.5 : ℝ) ∧
        initPrinted args = [(args.warmup_updates : ℝ) ^ (-1.5 : ℝ)]) := by
  refine ⟨_, _, init_eq_ok args opt x h hW hH, ?_, ?_⟩
  · intro hneg
    simp [resolveArgs, initPrinted, hneg]
  · intro hnonneg
    norm_num [resolveArgs, initPrinted, not_lt.2 hnonneg]

theorem c3_witness :
    ∃ sched opt1,
      init exArgs exOpt = .ok (resolveArgs exArgs 2, sched, opt1, initPrinted exArgs) ∧
      (exArgs.warmup_init_lr < 0 →
        (resolveArgs exArgs 2).warmup_init_lr = 2 ∧ initPrinted exArgs = []) ∧
      (0 ≤ exArgs.warmup_init_lr →
        (resolveArgs exArgs 2).warmup_init_lr = (exArgs.warmup_updates : ℝ) ^ (-1.5 : ℝ) ∧
        initPrinted exArgs = [(exArgs.warmup_updates : ℝ) ^ (-1.5 : ℝ)]) :=
  c3_resolve_warmup_init_lr exArgs exOpt 2 rfl (by decide) (by decide)

/-- C4: calling `step_update` with `num_updates = 0` evaluates `0 ** -0.5`
(line 79), a division-by-zero condition that raises in Python, so the call
fails instead of returning the construction-time learning rate. -/
theorem c4_step_update_zero_fails (self : InverseSquareRootSchedule)
    (opt : Optimizer) : step_update self opt 0 = none := by
  rw [step_update, if_pos rfl]

/-- A configuration with target learning rate `0` and the negative sentinel
for `warmup_init_lr`: construction succeeds but the initial learning rate
is `0 * hidden_layer_size^-0.5 = 0`. -/
noncomputable def exArgsZeroLr : Args :=
  { lr := [0], warmup_updates := 4000, warmup_init_lr := -1, hidden_layer_size := 1024 }

/-- C5 as stated is false: with the single target learning rate `0` and
configured `warmup_init_lr = -1` (the negative sentinel), construction
succeeds but the initial learning rate is `0`, not positive. -/
theorem c5_counterexample :
    ∃ args2 sched opt1 pr, init exArgsZeroLr exOpt = .ok (args2, sched, opt1, pr) ∧
      ¬ 0 < sched.lr := by
  refine ⟨_, _, _, _, init_eq_ok exArgsZeroLr exOpt 0 rfl (by decide) (by decide), ?_⟩
  have h0 : (mkSched exArgsZeroLr (resolveArgs exArgsZeroLr 0)).lr = 0 := by
    norm_num [mkSched, resolveArgs, exArgsZeroLr]
  rw [h0]
  norm_num

/-- C5 (amended): for every configuration with a one-element `lr` list (and
nonzero `warmup_updates` and `hidden_layer_size`, the spec's positive
integers), construction succeeds, sets the initial learning rate to
`(resolved warmup_init_lr) * hidden_layer_size^-0.5`, immediately pushes it
to the optimizer via `set_lr`, and this initial learning rate is positive
whenever the configured `warmup_init_lr` is non-negative or the single
target learning rate `lr[0]` is positive. -/
theorem c5_init_sets_lr (args : Args) (opt : Optimizer) (x : ℝ)
    (h : args.lr = [x]) (hW : args.warmup_updates ≠ 0)
    (hH : args.hidden_layer_size ≠ 0) :
    ∃ args2 sched opt1 pr, init args opt = .ok (args2, sched, opt1, pr) ∧
      sched.lr = args2.warmup_init_lr * (args.hidden_layer_size : ℝ) ^ (-0.5 : ℝ) ∧
      opt1 = opt.set_lr sched.lr ∧
      (0 ≤ args.warmup_init_lr ∨ 0 < x → 0 < sched.lr) := by
  refine ⟨_, _, _, _, init_eq_ok args opt x h hW hH, rfl, rfl, ?_⟩
  intro hpos
  have hH2 : (0 : ℝ) < (args.hidden_layer_size : ℝ) ^ (-0.5 : ℝ) :=
    Real.rpow_pos_of_pos (by exact_mod_cast Nat.pos_of_ne_zero hH) _
  have hW2 : (0 : ℝ) < (args.warmup_updates : ℝ) ^ (-1.5 : ℝ) :=
    Real.rpow_pos_of_pos (by exact_mod_cast Nat.pos_of_ne_zero hW) _
  have hres : 0 < (resolveArgs args x).warmup_init_lr := by
    rw [resolveArgs]
    by_cases hneg : args.warmup_init_lr < 0
    · rw [if_pos hneg]
      rcases hpos with h1 | h1
      · exact absurd hneg (not_lt.2 h1)
      · exact h1
    · rw [if_neg hneg]
      show (0 : ℝ) < 1.0 * (args.warmup_updates : ℝ) ^ (-1.5 : ℝ)
      exact mul_pos (by norm_num) hW2
  exact mul_pos hres hH2

theorem c5_witness :
    ∃ args2 sched opt1 pr, init exArgs exOpt = .ok (args2, sched, opt1, pr) ∧
      sched.lr = args2.warmup_init_lr * (exArgs.hidden_layer_size : ℝ) ^ (-0.5 : ℝ) ∧
      opt1 = exOpt.set_lr sched.lr ∧
      (0 ≤ exArgs.warmup_init_lr ∨ 0 < (2 : ℝ) → 0 < sched.lr) :=
  c5_init_sets_lr exArgs exOpt 2 rfl (by decide) (by decide)

/-- C6: monotonicity of `step_update` for a constructed schedule: the
learning rate it computes, assigns and returns is non-decreasing in
`num_updates` while `num_updates ≤ warmup_updates` and non-increasing once
`num_updates ≥ warmup_updates`. -/
theorem c6_monotonicity (args : Args) (opt : Optimizer) (args2 : Args)
    (sched : InverseSquareRootSchedule) (opt1 : Optimizer) (pr : List ℝ)
    (hinit : init args opt = .ok (args2, sched, opt1, pr))
    (m n : ℕ) (hm : 1 ≤ m) (hmn : m < n) :
    (n ≤ args.warmup_updates → step_update_lr sched m ≤ step_update_lr sched n) ∧
    (args.warmup_updates ≤ m → step_update_lr sched n ≤ step_update_lr sched m) := by
  obtain ⟨hW, hH, x, hl, ha, hs, ho, hp⟩ := init_ok_inv args opt args2 sched opt1 pr hinit
  subst hs
  have hwf : (mkSched args args2).warmup_init_lr = (args.warmup_updates : ℝ) ^ (-1.5 : ℝ) := rfl
  have hd : (0 : ℝ) ≤ (mkSched args args2).d_model_factor :=
    Real.rpow_nonneg (Nat.cast_nonneg _) _
  constructor
  · intro hnW
    have h1 : lr1 (mkSched args args2) m ≤ lr1 (mkSched args args2) n := by
      rw [lr1, lr1]
      exact mul_le_mul_of_nonneg_right (by exact_mod_cast hmn.le)
        (Real.rpow_nonneg (Nat.cast_nonneg _) _)
    have h2 : lr1 (mkSched args args2) n ≤ lr2 n :=
      lr1_le_lr2 args.warmup_updates n _ hwf (by omega) hnW
    simp only [step_update_lr]
    apply mul_le_mul_of_nonneg_right _ hd
    rw [min_eq_left h2]
    exact le_trans (min_le_left _ _) h1
  · intro hWm
    have h2m : lr2 m ≤ lr1 (mkSched args args2) m :=
      lr2_le_lr1 args.warmup_updates m _ hwf hW hWm
    have h2n : lr2 n ≤ lr1 (mkSched args args2) n :=
      lr2_le_lr1 args.warmup_updates n _ hwf hW (by omega)
    simp only [step_update_lr]
    apply mul_le_mul_of_nonneg_right _ hd
    rw [min_eq_right h2m, min_eq_right h2n]
    exact rpow_cast_anti m n _ (by norm_num) (by omega) hmn.le

theorem c6_witness :
    ((2 : ℕ) ≤ exArgs.warmup_updates →
      step_update_lr exSched 1 ≤ step_update_lr exSched 2) ∧
    (exArgs.warmup_updates ≤ 1 →
      step_update_lr exSched 2 ≤ step_update_lr exSched 1) :=
  c6_monotonicity exArgs exOpt exArgsR exSched exOpt1 (initPrinted exArgs)
    (init_eq_ok exArgs exOpt 2 rfl (by decide) (by decide)) 1 2 (by decide) (by decide)

/-- C7: crossover — for a constructed schedule the two candidate terms of
`step_update` coincide at `num_updates = warmup_updates`:
`warmup_updates * warmup_updates^-1.5 = warmup_updates^-0.5`. -/
theorem c7_crossover (args : Args) (opt : Optimizer) (args2 : Args)
    (sched : InverseSquareRootSchedule) (opt1 : Optimizer) (pr : List ℝ)
    (hinit : init args opt = .ok (args2, sched, opt1, pr)) :
    lr1 sched args.warmup_updates = lr2 args.warmup_updates := by
  obtain ⟨hW, hH, x, hl, ha, hs, ho, hp⟩ := init_ok_inv args opt args2 sched opt1 pr hinit
  subst hs
  rw [lr1, lr2_eq_mul _ hW]
  rfl

theorem c7_witness : lr1 exSched exArgs.warmup_updates = lr2 exArgs.warmup_updates :=
  c7_crossover exArgs exOpt exArgsR exSched exOpt1 (initPrinted exArgs)
    (init_eq_ok exArgs exOpt 2 rfl (by decide) (by decide))

/-- C8: for every epoch and every `val_loss` (including none), `step`
leaves the schedule's current learning rate and the optimizer unchanged and
returns the optimizer's current learning rate. -/
theorem c8_step_frame (self : InverseSquareRootSchedule) (opt : Optimizer)
    (epoch : ℕ) (val_loss : Option ℝ) :
    (step self opt epoch val_loss).1.lr = self.lr ∧
    (step self opt epoch val_loss).2.1 = opt ∧
    (step self opt epoch val_loss).2.2 = opt.get_lr :=
  ⟨rfl, rfl, rfl⟩

/-! Reachable run states -/

/-- The states a run can be in: the state just after construction from
configuration `args` (tagged `none`, no `num_updates` supplied yet), and
the states after any interleaving of successful `step_update` calls and
`step` calls. The `Option ℕ` component records the most recently supplied
`num_updates`. -/
inductive Reachable (args : Args) (opt0 : Optimizer) :
    InverseSquareRootSchedule → Optimizer → Option ℕ → Prop where
  | construct (args2 : Args) (sched : InverseSquareRootSchedule) (opt : Optimizer)
      (pr : List ℝ) (h : init args opt0 = .ok (args2, sched, opt, pr)) :
      Reachable args opt0 sched opt none
  | update (sched : InverseSquareRootSchedule) (opt : Optimizer) (last : Option ℕ)
      (n : ℕ) (sched2 : InverseSquareRootSchedule) (opt2 : Optimizer) (r : ℝ)
      (hr : Reachable args opt0 sched opt last)
      (h : step_update sched opt n = some (sched2, opt2, r)) :
      Reachable args opt0 sched2 opt2 (some n)
  | epoch (sched : InverseSquareRootSchedule) (opt : Optimizer) (last : Option ℕ)
      (e : ℕ) (v : Option ℝ) (hr : Reachable args opt0 sched opt last) :
      Reachable args opt0 (step sched opt e v).1 (step sched opt e v).2.1 last

/-- The fields fixed at construction are preserved by every reachable
transition. -/
theorem reachable_consts (args : Args) (opt0 : Optimizer)
    (sched : InverseSquareRootSchedule) (opt : Optimizer) (last : Option ℕ)
    (h : Reachable args opt0 sched opt last) :
    sched.warmup_init_lr = (args.warmup_updates : ℝ) ^ (-1.5 : ℝ) ∧
    sched.d_model_factor = (args.hidden_layer_size : ℝ) ^ (-0.5 : ℝ) := by
  induction h with
  | construct args2 sched1 opt1 pr hinit =>
    obtain ⟨hW, hH, x, hl, ha, hs, ho, hp⟩ := init_ok_inv args opt0 args2 sched1 opt1 pr hinit
    subst hs
    exact ⟨rfl, rfl⟩
  | update sched1 opt1 last1 m sched2 opt2 r hr hstep ih =>
    rw [step_update] at hstep
    split at hstep
    · exact absurd hstep (by simp)
    · simp only [Option.some.injEq, Prod.mk.injEq] at hstep
      obtain ⟨h1, h2, h3⟩ := hstep
      subst h1
      exact ih
  | epoch sched1 opt1 last1 e v hr ih => exact ih

/-- In every reachable state tagged with a most recent `num_updates`, the
current learning rate is the schedule formula evaluated there, and it is
non-negative. -/
theorem reachable_lr_formula (args : Args) (opt0 : Optimizer)
    (sched : InverseSquareRootSchedule) (opt : Optimizer) (last : Option ℕ)
    (h : Reachable args opt0 sched opt last) :
    ∀ n : ℕ, last = some n →
      0 ≤ sched.lr ∧
      sched.lr = min ((n : ℝ) * (args.warmup_updates : ℝ) ^ (-1.5 : ℝ))
        ((n : ℝ) ^ (-0.5 : ℝ)) * (args.hidden_layer_size : ℝ) ^ (-0.5 : ℝ) := by
  induction h with
  | construct args2 sched1 opt1 pr hinit =>
    intro n hn
    exact absurd hn (by simp)
  | update sched1 opt1 last1 m sched2 opt2 r hr hstep ih =>
    intro n hn
    injection hn with hn
    subst hn
    obtain ⟨hc1, hc2⟩ := reachable_consts args opt0 sched1 opt1 last1 hr
    rw [step_update] at hstep
    split at hstep
    · exact absurd hstep (by simp)
    · simp only [Option.some.injEq, Prod.mk.injEq] at hstep
      obtain ⟨h1, h2, h3⟩ := hstep
      subst h1
      constructor
      · show (0 : ℝ) ≤ step_update_lr sched1 m
        rw [step_update_lr, lr1, lr2, hc1, hc2]
        apply mul_nonneg
        · exact le_min
            (mul_nonneg (Nat.cast_nonneg m) (Real.rpow_nonneg (Nat.cast_nonneg _) _))
            (Real.rpow_nonneg (Nat.cast_nonneg _) _)
        · exact Real.rpow_nonneg (Nat.cast_nonneg _) _
      · show step_update_lr sched1 m = _
        rw [step_update_lr, lr1, lr2, hc1, hc2]
  | epoch sched1 opt1 last1 e v hr ih =>
    intro n hn
    exact ih n hn

/-- C9: state invariant — in every reachable state that has seen at least
one `step_update` call, the current learning rate is non-negative and
equals
`min(num_updates * warmup_updates^-1.5, num_updates^-0.5) * hidden_layer_size^-0.5`
for the most recently supplied `num_updates`; the construction-time state,
tagged `none`, is the sole state not covered. -/
theorem c9_invariant (args : Args) (opt0 : Optimizer)
    (sched : InverseSquareRootSchedule) (opt : Optimizer) (last : Option ℕ)
    (h : Reachable args opt0 sched opt last) (n : ℕ) (hlast : last = some n) :
    0 ≤ sched.lr ∧
    sched.lr = min ((n : ℝ) * (args.warmup_updates : ℝ) ^ (-1.5 : ℝ))
      ((n : ℝ) ^ (-0.5 : ℝ)) * (args.hidden_layer_size : ℝ) ^ (-0.5 : ℝ) :=
  reachable_lr_formula args opt0 sched opt last h n hlast

noncomputable def exSched1 : InverseSquareRootSchedule :=
  { exSched with lr := step_update_lr exSched 1 }

noncomputable def exOpt2 : Optimizer := exOpt1.set_lr (step_update_lr exSched 1)

theorem c9_witness :
    0 ≤ exSched1.lr ∧
    exSched1.lr = min (((1 : ℕ) : ℝ) * (exArgs.warmup_updates : ℝ) ^ (-1.5 : ℝ))
      (((1 : ℕ) : ℝ) ^ (-0.5 : ℝ)) * (exArgs.hidden_layer_size : ℝ) ^ (-0.5 : ℝ) :=
  c9_invariant exArgs exOpt exSched1 exOpt2 (some 1)
    (Reachable.update exSched exOpt1 none 1 exSched1 exOpt2 (step_update_lr exSched 1)
      (Reachable.construct exArgsR exSched exOpt1 (initPrinted exArgs)
        (init_eq_ok exArgs exOpt 2 rfl (by decide) (by decide)))
      (step_update_eq exSched exOpt1 1 (by decide)))
    1 rfl

/-! Noninterference of the configured target learning rate -/

/-- Schedules agreeing on every field except possibly the current learning
rate have identical `step_update` behaviour. -/
theorem step_update_ext (s1 s2 : InverseSquareRootSchedule) (opt : Optimizer)
    (n : ℕ) (hn : n ≠ 0)
    (h1 : s1.warmup_init_lr = s2.warmup_init_lr)
    (h2 : s1.d_model = s2.d_model)
    (h3 : s1.d_model_factor = s2.d_model_factor) :
    step_update s1 opt n = step_update s2 opt n := by
  have hlr : step_update_lr s1 n = step_update_lr s2 n := by
    rw [step_update_lr, step_update_lr, lr1, lr1, h1, h3]
  rw [step_update_eq s1 opt n hn, step_update_eq s2 opt n hn, hlr]
  have hrec : ({ s1 with lr := step_update_lr s2 n } : InverseSquareRootSchedule)
      = { s2 with lr := step_update_lr s2 n } := by
    cases s1
    cases s2
    simp_all
  rw [hrec]

/-- C10: noninterference of the target learning rate — for every
`num_updates ≥ 1`, two constructions whose configurations agree on
`warmup_updates`, `warmup_init_lr` and `hidden_layer_size` (so that they
can differ only in the configured `lr` values) yield schedules with
identical `step_update` results: the per-update formula never reads the
configured target learning rate. -/
theorem c10_noninterference (a1 a2 : Args) (o1 o2 : Optimizer)
    (b1 b2 : Args) (s1 s2 : InverseSquareRootSchedule) (p1 p2 : Optimizer)
    (l1 l2 : List ℝ)
    (hW : a1.warmup_updates = a2.warmup_updates)
    (hH : a1.hidden_layer_size = a2.hidden_layer_size)
    (hwil : a1.warmup_init_lr = a2.warmup_init_lr)
    (h1 : init a1 o1 = .ok (b1, s1, p1, l1))
    (h2 : init a2 o2 = .ok (b2, s2, p2, l2))
    (n : ℕ) (hn : 1 ≤ n) :
    step_update_lr s1 n = step_update_lr s2 n ∧
    ∀ opt : Optimizer, step_update s1 opt n = step_update s2 opt n := by
  obtain ⟨hW1, hH1, x1, hl1, ha1, hs1, ho1, hp1⟩ := init_ok_inv a1 o1 b1 s1 p1 l1 h1
  obtain ⟨hW2, hH2, x2, hl2, ha2, hs2, ho2, hp2⟩ := init_ok_inv a2 o2 b2 s2 p2 l2 h2
  subst hs1 hs2
  have f1 : (mkSched a1 b1).warmup_init_lr = (mkSched a2 b2).warmup_init_lr := by
    show (a1.warmup_updates : ℝ) ^ (-1.5 : ℝ) = (a2.warmup_updates : ℝ) ^ (-1.5 : ℝ)
    rw [hW]
  have f2 : (mkSched a1 b1).d_model = (mkSched a2 b2).d_model := hH
  have f3 : (mkSched a1 b1).d_model_factor = (mkSched a2 b2).d_model_factor := by
    show (a1.hidden_layer_size : ℝ) ^ (-0.5 : ℝ) = (a2.hidden_layer_size : ℝ) ^ (-0.5 : ℝ)
    rw [hH]
  have hlr : step_update_lr (mkSched a1 b1) n = step_update_lr (mkSched a2 b2) n := by
    rw [step_update_lr, step_update_lr, lr1, lr1, f1, f3]
  exact ⟨hlr, fun opt => step_update_ext _ _ opt n (by omega) f1 f2 f3⟩

/-- A second example configuration, identical to `exArgs` except for the
configured target learning rate. -/
noncomputable def exArgsB : Args :=
  { lr := [5], warmup_updates := 4, warmup_init_lr := 0, hidden_layer_size := 9 }

noncomputable def exSchedB : InverseSquareRootSchedule :=
  mkSched exArgsB (resolveArgs exArgsB 5)

theorem c10_witness :
    step_update_lr exSched 3 = step_update_lr exSchedB 3 ∧
    ∀ opt : Optimizer, step_update exSched opt 3 = step_update exSchedB opt 3 :=
  c10_noninterference exArgs exArgsB exOpt exOpt exArgsR (resolveArgs exArgsB 5)
    exSched exSchedB exOpt1 (exOpt.set_lr exSchedB.lr)
    (initPrinted exArgs) (initPrinted exArgsB) rfl rfl rfl
    (init_eq_ok exArgs exOpt 2 rfl (by decide) (by decide))
    (init_eq_ok exArgsB exOpt 5 rfl (by decide) (by decide)) 3 (by decide)

end Vaswani
